import Mathlib

/-!
Verification development for the Chatty task scheduler
(src/scheduler.py and src/taskTools.py).

Modelling conventions:
* Instants are UTC Unix timestamps in whole seconds (Int).  The source
  normalizes every datetime to UTC via _make_dt_aware before comparing;
  in an absolute-seconds model that normalization is the identity, and
  the whole-second granularity used by the EXDATE comparison
  (replace(microsecond=0)) coincides with plain equality.
* The RRULE-to-dateutil plumbing of scheduler.py lines 92-100 always
  raises: line 92 calls rrule_prop.to_dict(), which exists on neither
  vRecur nor CaselessDict nor dict; even granting it, the parsed FREQ
  value is a one-element list, so line 94 raises on .upper(); and
  dateutil.rrule.rrule accepts neither a FREQ keyword nor a string
  frequency at line 100.  The recurring branch is therefore modelled as
  the exception path, reaching the handler at line 174.  The RRule type
  records the parsed RRULE property; RRule.after models the dateutil
  query of dead source text (lines 151-153) for the fixed-step
  frequencies SECONDLY..WEEKLY: occurrence k of a rule seeded at dtstart
  is dtstart + k * interval * freqSeconds, bounded by COUNT/UNTIL, and
  after(t, inc) is the earliest occurrence at-or-after (strictly after,
  when inc is false) t.
* Fallible Python code (the try/except wrapper of
  calculate_next_occurrence) is modelled with Except.
-/

namespace Chatty

/-- scheduler.py line 15: POLL_INTERVAL_SECONDS = 10. -/
def POLL_INTERVAL_SECONDS : Int := 10

/-- Recurrence frequencies with a fixed step in seconds
(dateutil FREQ values SECONDLY..WEEKLY). -/
inductive Freq
  | secondly
  | minutely
  | hourly
  | daily
  | weekly
  deriving DecidableEq, Repr

/-- Length of one frequency unit in seconds. -/
def Freq.seconds : Freq → Nat
  | .secondly => 1
  | .minutely => 60
  | .hourly => 3600
  | .daily => 86400
  | .weekly => 604800

/-- A parsed RRULE as handed to dateutil.rrule in scheduler.py line 100:
frequency, INTERVAL (dateutil default 1), optional COUNT, optional UNTIL
(an absolute instant, inclusive). -/
structure RRule where
  freq : Freq
  interval : Nat
  count : Option Nat
  untilTs : Option Int
  deriving DecidableEq, Repr

/-- Seconds between two consecutive index positions of the rule. -/
def RRule.step (r : RRule) : Nat := r.interval * r.freq.seconds

/-- The k-th raw occurrence of the rule seeded at dtstart. -/
def RRule.occAt (r : RRule) (dtstart : Int) (k : Nat) : Int :=
  dtstart + ((k * r.step : Nat) : Int)

/-- COUNT bound: only the first COUNT occurrences exist. -/
def RRule.inCount (r : RRule) (k : Nat) : Bool :=
  match r.count with
  | none => true
  | some c => k < c

/-- UNTIL bound: occurrences after UNTIL do not exist (UNTIL inclusive). -/
def RRule.inUntil (r : RRule) (u : Int) : Bool :=
  match r.untilTs with
  | none => true
  | some ul => u ≤ ul

/-- Least index k with t ≤ occAt dtstart k (for positive step). -/
def RRule.kminIncl (r : RRule) (dtstart t : Int) : Nat :=
  if t ≤ dtstart then 0 else ((t - dtstart).toNat + r.step - 1) / r.step

/-- Least index k with t < occAt dtstart k (for positive step). -/
def RRule.kminStrict (r : RRule) (dtstart t : Int) : Nat :=
  if t < dtstart then 0 else (t - dtstart).toNat / r.step + 1

/-- Model of dateutil rule.after(t, inc): the earliest occurrence
at-or-after t (strictly after t when inc is false), or none when the
COUNT/UNTIL-bounded rule has no such occurrence.  Computed via the least
candidate index. -/
def RRule.after (r : RRule) (dtstart t : Int) (inc : Bool) : Option Int :=
  let kmin : Nat := if inc then r.kminIncl dtstart t else r.kminStrict dtstart t
  let u := r.occAt dtstart kmin
  if r.inCount kmin && r.inUntil u then some u else none

/-- A parsed VEVENT as scheduler.py sees it after
icalendar.Event.from_ical: the DTSTART instant (absent when the fragment
has no DTSTART), the optional RRULE, and the instants listed on RDATE
and EXDATE lines, all normalized to UTC seconds. -/
structure VEvent where
  dtstart : Option Int
  rrule : Option RRule
  rdate : List Int
  exdate : List Int
  deriving DecidableEq, Repr

/-- ASCII upper-casing of a key, as Python str.upper does for the
all-ASCII property names involved here. -/
def upperKey (s : String) : String := String.mk (s.data.map Char.toUpper)

/-- Embedding of the icalendar Component.get(key) lookup for date-list
valued properties.  icalendar stores a parsed component as a
case-insensitive dictionary keyed by the upper-cased ICS property names,
here RDATE and EXDATE; a property with no line in the fragment has no
key, and any other key (in particular the plural RDATES / EXDATES that
scheduler.py lines 121 and 135 ask for) is absent, i.e. none. -/
def VEvent.getDateList (e : VEvent) (key : String) : Option (List Int) :=
  if upperKey key = "RDATE" then
    (if e.rdate.isEmpty then none else some e.rdate)
  else if upperKey key = "EXDATE" then
    (if e.exdate.isEmpty then none else some e.exdate)
  else none

/-- scheduler.py line 83: catch_up_window = timedelta(minutes=5). -/
def catchUpWindow : Int := 5 * 60

/-- scheduler.py line 104:
grace_period_for_just_missed = timedelta(seconds=POLL_INTERVAL_SECONDS * 2). -/
def gracePeriod : Int := POLL_INTERVAL_SECONDS * 2

/-- scheduler.py lines 124-132: the RDATE loop.  For each RDATE value the
loop first evaluates rdate_val >= effective_search_start_utc; on the
one-off path that local variable was never assigned (it is only bound in
the recurring branch, line 105), so the first iteration raises
UnboundLocalError, modelled as Except.error. -/
def rdateFold : List Int → Option Int → Option Int → Except Unit (Option Int)
  | [], _, cand => Except.ok cand
  | rd :: rds, effStart, cand =>
    match effStart with
    | none => Except.error ()
    | some eff =>
      if rd ≥ eff then
        match cand with
        | none => rdateFold rds effStart (some rd)
        | some cv =>
          if rd < cv then rdateFold rds effStart (some rd)
          else rdateFold rds effStart (some cv)
      else rdateFold rds effStart cand

/-- scheduler.py lines 121-132: rdate_prop = event.get(RDATES); the loop
only runs when that lookup yields something. -/
def rdateStep (e : VEvent) (effStart : Option Int) (cand : Option Int) :
    Except Unit (Option Int) :=
  match e.getDateList "rdates" with
  | none => Except.ok cand
  | some rds => rdateFold rds effStart cand

/-- scheduler.py lines 157-164: after an exclusion, re-scan the RDATE
values; any value strictly between the matched EXDATE and the current
candidate replaces the candidate. -/
def rdateReEval : List Int → Int → Int → Int
  | [], _, c => c
  | rd :: rds, exv, c =>
    if rd > exv ∧ rd < c then rdateReEval rds exv rd
    else rdateReEval rds exv c

/-- scheduler.py lines 134-167: EXDATE handling.  exdate_prop =
event.get(EXDATES); when the candidate equals a listed exclusion
(compared at whole-second granularity, here plain equality), a recurring
schedule re-queries the rule strictly after the excluded instant and
re-scans the RDATE values, while a non-recurring candidate becomes
none. -/
def exdateStep (e : VEvent) (dtstartUtc : Int) (cand : Option Int) :
    Option Int :=
  match cand with
  | none => none
  | some cv =>
    match e.getDateList "exdates" with
    | none => some cv
    | some exs =>
      match exs.find? (fun x => x == cv) with
      | none => some cv
      | some exdateVal =>
        match e.rrule with
        | some r =>
          match r.after dtstartUtc cv false with
          | none => none
          | some nextAfterExclusion =>
            match e.getDateList "rdates" with
            | none => some nextAfterExclusion
            | some rds => some (rdateReEval rds exdateVal nextAfterExclusion)
        | none => none

/-- Body of scheduler.py calculate_next_occurrence (lines 61-172), inside
the try block; Except.error stands for an exception reaching the handler
at line 174.  The recurring branch (lines 90-115) always raises while
building the dateutil rule from the parsed RRULE: line 92 calls
vRecur.to_dict, which does not exist; even granting it, FREQ parses as a
one-element list, so line 94 raises on .upper(); and
dateutil.rrule.rrule accepts neither a FREQ keyword nor a string
frequency at line 100.  So every fragment with an RRULE property takes
the exception path, and only the one-off path reaches the RDATE and
EXDATE blocks; effective_search_start_utc is never assigned on that
surviving path (it is only bound at line 105, inside the recurring
branch). -/
def calcNextOccurrenceE (e : VEvent) (nowUtc : Int) : Except Unit (Option Int) :=
  match e.dtstart with
  | none => Except.ok none
  | some dtstartValUtc =>
    match e.rrule with
    | some _ => Except.error ()
    | none =>
      let cand : Option Int :=
        if dtstartValUtc ≥ nowUtc - catchUpWindow then some dtstartValUtc
        else none
      match rdateStep e none cand with
      | Except.error u => Except.error u
      | Except.ok cand1 => Except.ok (exdateStep e dtstartValUtc cand1)

/-- scheduler.py calculate_next_occurrence: any exception caught at line
174 yields None; otherwise the final candidate (line 172, where the last
_make_dt_aware is the identity on an already-UTC instant). -/
def calculate_next_occurrence (e : VEvent) (nowUtc : Int) : Option Int :=
  match calcNextOccurrenceE e nowUtc with
  | Except.ok r => r
  | Except.error _ => none

/-! Closed form of calculate_next_occurrence: the recurring branch is
the exception path (see calcNextOccurrenceE), and on the surviving
one-off path the RDATE and EXDATE blocks are inert because the source
asks the parsed component for the plural keys RDATES and EXDATES, which
never exist. -/

lemma VEvent.getDateList_rdates (e : VEvent) : e.getDateList "rdates" = none := rfl

lemma VEvent.getDateList_exdates (e : VEvent) : e.getDateList "exdates" = none := rfl

lemma rdateStep_eq (e : VEvent) (effStart : Option Int) (cand : Option Int) :
    rdateStep e effStart cand = Except.ok cand := rfl

lemma exdateStep_eq (e : VEvent) (S : Int) (cand : Option Int) :
    exdateStep e S cand = cand := by
  cases cand <;> rfl

lemma calculate_next_occurrence_eq (e : VEvent) (now : Int) :
    calculate_next_occurrence e now =
      match e.dtstart, e.rrule with
      | none, _ => none
      | some _, some _ => none
      | some S, none => if S ≥ now - catchUpWindow then some S else none := by
  unfold calculate_next_occurrence calcNextOccurrenceE
  cases hd : e.dtstart with
  | none => rfl
  | some S =>
    cases hr : e.rrule with
    | none =>
      by_cases h : S ≥ now - catchUpWindow <;>
        simp [h, rdateStep_eq, exdateStep_eq]
    | some r => rfl

/-! Concrete instants (UTC Unix seconds) used by the spec examples. -/

/-- 2024-01-01T09:00:00Z. -/
def jan1T0900 : Int := 1704099600

/-- 2024-01-03T08:00:00Z. -/
def jan3T0800 : Int := 1704268800

/-- 2024-01-03T09:00:00Z. -/
def jan3T0900 : Int := 1704272400

/-- 2024-01-03T09:00:05Z. -/
def jan3T090005 : Int := 1704272405

/-- 2024-01-04T09:00:00Z. -/
def jan4T0900 : Int := 1704358800

/-- 2024-01-05T09:00:00Z. -/
def jan5T0900 : Int := 1704445200

/-- RRULE:FREQ=DAILY. -/
def dailyRule : RRule := ⟨Freq.daily, 1, none, none⟩

/-- Daily recurrence starting 2024-01-01T09:00:00Z, no RDATE/EXDATE. -/
def dailyJan1Event : VEvent := ⟨some jan1T0900, some dailyRule, [], []⟩

/-- One-off event starting 2024-01-01T09:00:00Z. -/
def oneOffJan1Event : VEvent := ⟨some jan1T0900, none, [], []⟩

/-- Daily recurrence starting 2024-01-01T09:00:00Z with
EXDATE:2024-01-03T09:00:00Z. -/
def excludedJan3Event : VEvent := ⟨some jan1T0900, some dailyRule, [], [jan3T0900]⟩

/-- One-off event starting 2024-01-01T09:00:00Z with
RDATE:2024-01-05T09:00:00Z. -/
def rdateJan5Event : VEvent := ⟨some jan1T0900, none, [jan5T0900], []⟩

/-- C1: evaluation of the code against the claim.  Every fragment with
an RRULE property resolves to None, whatever its start instant, rule,
additional or excluded instants and whatever the poll instant: the
recurring branch raises while building the dateutil rule (scheduler.py
lines 92-100) and the handler at line 174 returns None.  In particular
the daily rule starting 2024-01-01T09:00:00Z yields None at each of the
three quoted poll instants, where the claim requires
2024-01-03T09:00:00Z. -/
theorem recurring_fragment_resolves_to_none :
    (∀ (d : Option Int) (r : RRule) (rd xd : List Int) (now : Int),
        calculate_next_occurrence ⟨d, some r, rd, xd⟩ now = none) ∧
    calculate_next_occurrence dailyJan1Event jan3T0900 = none ∧
    calculate_next_occurrence dailyJan1Event jan3T090005 = none ∧
    calculate_next_occurrence dailyJan1Event jan3T0800 = none ∧
    (none : Option Int) ≠ some jan3T0900 := by
  refine ⟨?_, by decide, by decide, by decide, by decide⟩
  intro d r rd xd now
  cases d <;> rfl

/-- C2: for a fragment with a valid start instant S, no recurrence rule
and no additional or excluded instants, calculate_next_occurrence
returns S whenever S >= now - W with W the fixed 5-minute catch-up
window, and none whenever now - W > S. -/
theorem calc_next_oneoff_catch_up
    (e : VEvent) (S now : Int)
    (hd : e.dtstart = some S) (hr : e.rrule = none)
    (hra : e.rdate = []) (hxe : e.exdate = []) :
    (S ≥ now - catchUpWindow → calculate_next_occurrence e now = some S) ∧
    (now - catchUpWindow > S → calculate_next_occurrence e now = none) ∧
    catchUpWindow = 5 * 60 := by
  rw [calculate_next_occurrence_eq, hd, hr]
  refine ⟨fun h => ?_, fun h => ?_, rfl⟩
  · show (if S ≥ now - catchUpWindow then some S else none) = some S
    rw [if_pos h]
  · show (if S ≥ now - catchUpWindow then some S else none) = none
    rw [if_neg (by omega)]

/-- Witness for C2: the one-off event starting 2024-01-01T09:00:00Z is
returned when polled at its own start instant. -/
theorem calc_next_oneoff_catch_up_witness :
    jan1T0900 ≥ jan1T0900 - catchUpWindow ∧
    calculate_next_occurrence oneOffJan1Event jan1T0900 = some jan1T0900 :=
  ⟨by decide,
   (calc_next_oneoff_catch_up oneOffJan1Event jan1T0900 jan1T0900
      rfl rfl rfl rfl).1 (by decide)⟩

/-- C3: evaluation of the code at the failing input.  With
2024-01-03T09:00:00Z listed in EXDATE of a daily recurrence starting
2024-01-01T09:00:00Z, calculate_next_occurrence polled at that very
instant returns None, not the following occurrence 2024-01-04T09:00:00Z
that the claim requires: the recurring branch raises at scheduler.py
lines 92-100 before any exclusion handling, and the exclusion block of
lines 134-167 is unreachable anyway since event.get is asked for the
nonexistent key EXDATES (the parsed property name is EXDATE). -/
theorem excluded_fragment_resolves_to_none :
    excludedJan3Event.exdate = [jan3T0900] ∧
    calculate_next_occurrence excludedJan3Event jan3T0900 = none ∧
    (none : Option Int) ≠ some jan4T0900 := by decide

/-- C4: evaluation of the code at the failing input.  For a one-off
fragment whose DTSTART 2024-01-01T09:00:00Z is long past and whose RDATE
lists 2024-01-05T09:00:00Z, a poll exactly at the additional instant
(within any catch-up window) still yields none (the claim says the
additional instant becomes the candidate): event.get with key RDATES
never finds the parsed RDATE property, and even with the right key the
one-off path would raise UnboundLocalError on
effective_search_start_utc. -/
theorem additional_instant_ignored :
    rdateJan5Event.rdate = [jan5T0900] ∧
    jan5T0900 ≥ jan5T0900 - catchUpWindow ∧
    calculate_next_occurrence rdateJan5Event jan5T0900 = none := by decide

/-! Embedding of taskTools.py: the persistent task store.  Task records
are JSON objects whose relevant keys may be absent (Option); the
schedule fragment is kept as the raw VEVENT string, since the store only
ever inspects it with substring checks. -/

/-- A stored task record (taskTools.py lines 87-93): the five keys
written by create; absent keys are none. -/
structure TaskRec where
  id : Option String
  conversation_id : Option String
  user_prompt : Option String
  schedule_vevent : Option String
  status : Option String
  deriving DecidableEq, Repr

/-- Observable states of the scheduled_tasks.json file that _load_tasks
distinguishes: missing, empty, undecodable JSON, JSON that is not a
list, or a JSON list of records. -/
inductive FileState
  | missing
  | emptyFile
  | badJson
  | nonList
  | goodList (tasks : List TaskRec)
  deriving DecidableEq, Repr

/-- taskTools.py _load_tasks (lines 9-31): every unreadable state --
missing file, empty file, JSONDecodeError, non-list value -- yields the
empty list; only a well-formed list yields its records. -/
def loadTasks : FileState → List TaskRec
  | FileState.goodList tasks => tasks
  | _ => []

/-- Character-list prefix test, an executable model of Python substring
matching. -/
def charPrefix : List Char → List Char → Bool
  | [], _ => true
  | _ :: _, [] => false
  | c :: cs, d :: ds => c == d && charPrefix cs ds

/-- Whether pat occurs as a contiguous substring of l. -/
def charInfix : List Char → List Char → Bool
  | pat, [] => pat.isEmpty
  | pat, c :: tl => charPrefix pat (c :: tl) || charInfix pat tl

/-- Python `pat in s` on strings. -/
def strContains (s pat : String) : Bool := charInfix pat.data s.data

/-- taskTools.py _is_valid_vevent_basic (lines 43-52): the string must
contain BEGIN:VEVENT, END:VEVENT and DTSTART. -/
def isValidVeventBasic (s : String) : Bool :=
  strContains s "BEGIN:VEVENT" && strContains s "END:VEVENT" &&
    strContains s "DTSTART"

/-- The record create appends (taskTools.py lines 87-93). -/
def newTaskRec (new_task_id conversation_id user_prompt schedule_vevent : String) :
    TaskRec :=
  ⟨some new_task_id, some conversation_id, some user_prompt,
   some schedule_vevent, some "pending"⟩

/-- taskTools.py create_scheduled_task (lines 56-104).  The uuid minted
at line 86 is passed in as new_task_id.  The first component models the
_save_tasks call: none when no write happens, some of the written file
state otherwise; the second component is the returned status.  Python
`not all([...])` treats empty strings as missing. -/
def create_scheduled_task (file : FileState)
    (conversation_id user_prompt schedule_vevent new_task_id : String) :
    Option FileState × String :=
  if conversation_id = "" ∨ user_prompt = "" ∨ schedule_vevent = "" then
    (none, "error")
  else if isValidVeventBasic schedule_vevent = false then
    (none, "error")
  else
    (some (FileState.goodList (loadTasks file ++
        [newTaskRec new_task_id conversation_id user_prompt schedule_vevent])),
     "success")

/-- taskTools.py list_scheduled_tasks (lines 106-135): returns all
records, filtered by conversation_id when a non-empty one is given
(Python truthiness at line 121). -/
def list_scheduled_tasks (file : FileState) (conversation_id : Option String) :
    String × List TaskRec :=
  let tasks := loadTasks file
  match conversation_id with
  | some c =>
    if c ≠ "" then
      ("success", tasks.filter (fun t => t.conversation_id == some c))
    else ("success", tasks)
  | none => ("success", tasks)

/-- taskTools.py delete_scheduled_task (lines 137-171): empty id is
rejected; records whose id key differs from task_id (absent keys always
differ) are kept in order; when nothing was removed the store is not
written and an error is returned. -/
def delete_scheduled_task (file : FileState) (task_id : String) :
    Option FileState × String :=
  if task_id = "" then
    (none, "error")
  else
    let tasks := loadTasks file
    let tasksAfter := tasks.filter (fun t => t.id != some task_id)
    if tasksAfter.length = tasks.length then
      (none, "error")
    else
      (some (FileState.goodList tasksAfter), "success")

/-- A well-formed VEVENT string for concrete store inputs. -/
def sampleVevent : String := "BEGIN:VEVENT\nDTSTART:20240101T090000Z\nEND:VEVENT"

/-- C7: create rejects, with an error status and no write, any fragment
that does not contain the BEGIN:VEVENT, END:VEVENT and DTSTART markers,
so a rejected fragment never reaches the stored collection; and when the
three arguments are non-empty and the fragment passes the structural
check, create appends a record carrying the freshly minted id and
returns success. -/
theorem create_validates_fragment (file : FileState)
    (cid up v nid : String) :
    (isValidVeventBasic v = false →
        create_scheduled_task file cid up v nid = (none, "error")) ∧
    (cid ≠ "" → up ≠ "" → v ≠ "" → isValidVeventBasic v = true →
        create_scheduled_task file cid up v nid =
          (some (FileState.goodList (loadTasks file ++ [newTaskRec nid cid up v])),
           "success")) := by
  constructor
  · intro hv
    unfold create_scheduled_task
    by_cases h : cid = "" ∨ up = "" ∨ v = ""
    · rw [if_pos h]
    · rw [if_neg h, if_pos hv]
  · intro hc hu hvne hv
    unfold create_scheduled_task
    rw [if_neg (by simp [hc, hu, hvne]), if_neg (by simp [hv])]

/-- Witness for C7: creating a task with a valid fragment on an empty
store writes exactly the new record. -/
theorem create_validates_fragment_witness :
    ("conv1" ≠ "" ∧ "hello" ≠ "" ∧ sampleVevent ≠ "" ∧
      isValidVeventBasic sampleVevent = true) ∧
    create_scheduled_task (FileState.goodList []) "conv1" "hello" sampleVevent "id1" =
      (some (FileState.goodList (loadTasks (FileState.goodList []) ++
          [newTaskRec "id1" "conv1" "hello" sampleVevent])), "success") :=
  ⟨⟨by decide, by decide, by decide, by decide⟩,
   (create_validates_fragment (FileState.goodList []) "conv1" "hello" sampleVevent
      "id1").2 (by decide) (by decide) (by decide) (by decide)⟩

/-- C8 counterexample: with the store file holding undecodable JSON,
create with valid arguments does not fail; it succeeds and writes a
fresh one-element collection, silently replacing the on-disk contents,
because _load_tasks maps every unreadable state to the empty list. -/
theorem store_corrupt_create_overwrites :
    (create_scheduled_task FileState.badJson "conv1" "hello" sampleVevent "id1").2
        = "success" ∧
    (create_scheduled_task FileState.badJson "conv1" "hello" sampleVevent "id1").1
        = some (FileState.goodList [newTaskRec "id1" "conv1" "hello" sampleVevent]) ∧
    (create_scheduled_task FileState.badJson "conv1" "hello" sampleVevent "id1").1
        ≠ none := by decide

/-- C8 amended: when the store file is unreadable (undecodable JSON or a
non-list value) the collection is treated as empty rather than the
operation failing: list succeeds returning no tasks, delete reports an
error without writing, and create with valid inputs succeeds, writing a
one-element collection that replaces the on-disk contents. -/
theorem store_unreadable_treated_as_empty
    (file : FileState)
    (hfile : file = FileState.badJson ∨ file = FileState.nonList)
    (cid up v nid : String) (hc : cid ≠ "") (hu : up ≠ "") (hv : v ≠ "")
    (hvv : isValidVeventBasic v = true) :
    loadTasks file = [] ∧
    list_scheduled_tasks file none = ("success", []) ∧
    (∀ tid, delete_scheduled_task file tid = (none, "error")) ∧
    create_scheduled_task file cid up v nid =
      (some (FileState.goodList [newTaskRec nid cid up v]), "success") := by
  have hload : loadTasks file = [] := by
    rcases hfile with h | h <;> subst h <;> rfl
  refine ⟨hload, ?_, ?_, ?_⟩
  · unfold list_scheduled_tasks
    rw [hload]
  · intro tid
    unfold delete_scheduled_task
    by_cases h : tid = ""
    · rw [if_pos h]
    · rw [if_neg h, hload]
      rfl
  · unfold create_scheduled_task
    rw [if_neg (by simp [hc, hu, hv]), if_neg (by simp [hvv]), hload]
    rfl

/-- Witness for C8 amended claim: concrete behavior on a non-list store
file. -/
theorem store_unreadable_treated_as_empty_witness :
    isValidVeventBasic sampleVevent = true ∧
    create_scheduled_task FileState.nonList "conv1" "hello" sampleVevent "id1" =
      (some (FileState.goodList [newTaskRec "id1" "conv1" "hello" sampleVevent]),
       "success") :=
  ⟨by decide,
   (store_unreadable_treated_as_empty FileState.nonList (Or.inr rfl)
      "conv1" "hello" sampleVevent "id1" (by decide) (by decide) (by decide)
      (by decide)).2.2.2⟩

/-- C10: delete with a non-empty id removes every stored record whose id
equals task_id (all duplicates), keeps every other record in their
original relative order, and persists the result; with an empty id or no
matching record it returns an error and performs no write. -/
theorem delete_removes_all_matching (file : FileState) (tid : String) :
    (tid = "" → delete_scheduled_task file tid = (none, "error")) ∧
    (tid ≠ "" → (∀ t ∈ loadTasks file, t.id ≠ some tid) →
        delete_scheduled_task file tid = (none, "error")) ∧
    (tid ≠ "" → (∃ t ∈ loadTasks file, t.id = some tid) →
        delete_scheduled_task file tid =
          (some (FileState.goodList
              ((loadTasks file).filter (fun t => t.id != some tid))), "success") ∧
        (∀ t ∈ (loadTasks file).filter (fun t => t.id != some tid),
            t.id ≠ some tid) ∧
        ((loadTasks file).filter (fun t => t.id != some tid)).Sublist
            (loadTasks file) ∧
        (∀ t ∈ loadTasks file, t.id ≠ some tid →
            t ∈ (loadTasks file).filter (fun t => t.id != some tid))) := by
  refine ⟨?_, ?_, ?_⟩
  · intro h
    unfold delete_scheduled_task
    rw [if_pos h]
  · intro h hall
    have hfix : (loadTasks file).filter (fun t => t.id != some tid) = loadTasks file := by
      apply List.filter_eq_self.mpr
      intro t ht
      simpa using hall t ht
    simp [delete_scheduled_task, h, hfix]
  · rintro h ⟨t0, ht0, hid⟩
    have hne : ((loadTasks file).filter (fun t => t.id != some tid)).length ≠
        (loadTasks file).length := by
      intro heq
      have heqs := (List.filter_sublist (loadTasks file)).eq_of_length heq
      rw [← heqs] at ht0
      have := List.of_mem_filter ht0
      simp at this
      exact this hid
    refine ⟨?_, ?_, List.filter_sublist _, ?_⟩
    · simp [delete_scheduled_task, h, hne]
    · intro t ht
      have := List.of_mem_filter ht
      simpa using this
    · intro t ht htne
      exact List.mem_filter.mpr ⟨ht, by simpa using htne⟩

/-- Two-record store with a duplicated id, for the C10 witness. -/
def storeDup : FileState :=
  FileState.goodList
    [⟨some "a", some "c", some "p1", some "v1", some "pending"⟩,
     ⟨some "b", some "c", some "p2", some "v2", some "pending"⟩,
     ⟨some "a", some "c", some "p3", some "v3", some "pending"⟩]

/-- Witness for C10: deleting id a from a store holding two a-records
and one b-record removes both a-records, keeps b, and persists. -/
theorem delete_removes_all_matching_witness :
    ("a" ≠ "" ∧ ∃ t ∈ loadTasks storeDup, t.id = some "a") ∧
    delete_scheduled_task storeDup "a" =
      (some (FileState.goodList
          ((loadTasks storeDup).filter (fun t => t.id != some "a"))), "success") ∧
    (loadTasks storeDup).filter (fun t => t.id != some "a") =
      [⟨some "b", some "c", some "p2", some "v2", some "pending"⟩] :=
  ⟨⟨by decide, by decide⟩,
   ((delete_removes_all_matching storeDup "a").2.2 (by decide) (by decide)).1,
   by decide⟩

/-! Embedding of the scheduler poll cycle, process_scheduled_tasks
(scheduler.py lines 198-249).  The scanner reads the same JSON records
as the store, but parses the fragment; a scanner-side task record
therefore carries the parsed VEvent (none for an absent or empty
schedule_vevent string, both falsy at line 219).  Delivery outcomes
(inject_prompt_via_api, a network call) are abstracted as a Boolean
oracle taking conversation_id, user_prompt and task_id. -/

/-- A task record as the scanner sees it. -/
structure STask where
  id : Option String
  conversation_id : Option String
  user_prompt : Option String
  schedule_vevent : Option VEvent
  deriving Repr

/-- Python truthiness of an optional string: absent and empty are falsy
(used at lines 219 and 234). -/
def truthy : Option String → Bool
  | none => false
  | some s => s != ""

/-- Embedding of the substring tests of line 213, RRULE not in
vevent.upper() and RDATE not in vevent.upper(): for fragments of the
documented syntax the literal RRULE occurs in the text exactly when the
fragment has a recurrence-rule property, and RDATE exactly when it lists
additional instants (no other standard property name contains either as
a substring; an absent fragment defaults to the empty string, which
contains neither). -/
def STask.isOneOff (t : STask) : Bool :=
  match t.schedule_vevent with
  | none => true
  | some e => !e.rrule.isSome && e.rdate.isEmpty

/-- scheduler.py line 210: task.get(id) with an index-based fallback. -/
def STask.effId (t : STask) (idx : Nat) : String :=
  t.id.getD ("unknown_id_at_index_" ++ toString idx)

/-- What happened to one task in one poll cycle. -/
inductive ScanAction
  | skippedFired
  | noVevent
  | noOccurrence
  | notDue
  | missingFields
  | delivered
  | deliveryFailed
  deriving DecidableEq, Repr

/-- Whether the action involved a delivery attempt (a call to
inject_prompt_via_api). -/
def ScanAction.isDeliveryAttempt : ScanAction → Bool
  | ScanAction.delivered => true
  | ScanAction.deliveryFailed => true
  | _ => false

/-- One iteration of the task loop of process_scheduled_tasks
(scheduler.py lines 209-247), threading the fired-once registry:
skip an already-fired one-off; skip a missing fragment; resolve the
next occurrence; classify due by
next <= now + POLL_INTERVAL_SECONDS / 2; skip a due task with missing
conversation_id or user_prompt; attempt delivery, and on success add a
one-off task's id to the registry. -/
def processTask (fired : List String)
    (deliver : String → String → String → Bool) (nowUtc : Int)
    (idx : Nat) (task : STask) : List String × ScanAction :=
  let task_id := task.effId idx
  if task.isOneOff && fired.contains task_id then
    (fired, ScanAction.skippedFired)
  else
    match task.schedule_vevent with
    | none => (fired, ScanAction.noVevent)
    | some e =>
      match calculate_next_occurrence e nowUtc with
      | none => (fired, ScanAction.noOccurrence)
      | some nextOccurrenceUtc =>
        if nextOccurrenceUtc ≤ nowUtc + POLL_INTERVAL_SECONDS / 2 then
          if !truthy task.conversation_id || !truthy task.user_prompt then
            (fired, ScanAction.missingFields)
          else
            if deliver (task.conversation_id.getD "") (task.user_prompt.getD "")
                task_id then
              (if task.isOneOff then task_id :: fired else fired,
               ScanAction.delivered)
            else
              (fired, ScanAction.deliveryFailed)
        else (fired, ScanAction.notDue)

/-- The enumerated task loop, from index idx. -/
def processCycleAux (fired : List String)
    (deliver : String → String → String → Bool) (nowUtc : Int)
    (idx : Nat) : List STask → List String × List ScanAction
  | [] => (fired, [])
  | task :: rest =>
    let step := processTask fired deliver nowUtc idx task
    let restOut := processCycleAux step.1 deliver nowUtc (idx + 1) rest
    (restOut.1, step.2 :: restOut.2)

/-- One full poll cycle over the loaded task list: the final registry
and the per-task actions in store order. -/
def processCycle (fired : List String)
    (deliver : String → String → String → Bool) (nowUtc : Int)
    (tasks : List STask) : List String × List ScanAction :=
  processCycleAux fired deliver nowUtc 0 tasks

/-- A run of successive poll cycles over an unchanged stored collection;
each cycle has its own poll instant and delivery outcomes.  Returns the
final registry and each cycle's action trace. -/
def runCycles (tasks : List STask) :
    List (Int × (String → String → String → Bool)) → List String →
      List String × List (List ScanAction)
  | [], fired => (fired, [])
  | (nowUtc, deliver) :: rest, fired =>
    let cyc := processCycle fired deliver nowUtc tasks
    let restOut := runCycles tasks rest cyc.1
    (restOut.1, cyc.2 :: restOut.2)

/-! Helper lemmas about the poll cycle. -/

lemma processTask_fired_cases (fired : List String)
    (deliver : String → String → String → Bool) (nowUtc : Int)
    (idx : Nat) (t : STask) :
    (processTask fired deliver nowUtc idx t).1 = fired ∨
    (processTask fired deliver nowUtc idx t).1 = t.effId idx :: fired := by
  unfold processTask
  dsimp only
  repeat' split
  all_goals simp

lemma processTask_fired_subset (fired : List String)
    (deliver : String → String → String → Bool) (nowUtc : Int)
    (idx : Nat) (t : STask) :
    fired ⊆ (processTask fired deliver nowUtc idx t).1 := by
  rcases processTask_fired_cases fired deliver nowUtc idx t with h | h <;> rw [h]
  · exact fun x hx => hx
  · exact fun x hx => List.mem_cons_of_mem _ hx

lemma processCycleAux_fired_subset
    (deliver : String → String → String → Bool) (nowUtc : Int) :
    ∀ (ts : List STask) (fired : List String) (idx : Nat),
      fired ⊆ (processCycleAux fired deliver nowUtc idx ts).1 := by
  intro ts
  induction ts with
  | nil => intro fired idx; exact fun x hx => hx
  | cons hd tl ih =>
    intro fired idx
    exact fun x hx =>
      ih (processTask fired deliver nowUtc idx hd).1 (idx + 1)
        (processTask_fired_subset fired deliver nowUtc idx hd hx)

/-- The action recorded for the task at position j of the list is the
action of processTask run at some intermediate registry f0 that contains
the cycle's initial registry, and whose output registry is contained in
the cycle's final registry. -/
lemma processCycleAux_get
    (deliver : String → String → String → Bool) (nowUtc : Int) :
    ∀ (ts : List STask) (fired : List String) (idx j : Nat) (t : STask),
      ts.get? j = some t →
      ∃ f0 : List String,
        fired ⊆ f0 ∧
        (processCycleAux fired deliver nowUtc idx ts).2.get? j =
          some (processTask f0 deliver nowUtc (idx + j) t).2 ∧
        (processTask f0 deliver nowUtc (idx + j) t).1 ⊆
          (processCycleAux fired deliver nowUtc idx ts).1 := by
  intro ts
  induction ts with
  | nil => intro fired idx j t h; simp at h
  | cons hd tl ih =>
    intro fired idx j t h
    cases j with
    | zero =>
      rw [List.get?_cons_zero] at h
      obtain rfl : hd = t := by injection h
      refine ⟨fired, fun x hx => hx, ?_, ?_⟩
      · simp [processCycleAux]
      · simp only [processCycleAux, Nat.add_zero]
        exact processCycleAux_fired_subset deliver nowUtc tl _ (idx + 1)
    | succ j' =>
      rw [List.get?_cons_succ] at h
      obtain ⟨f0, hsub, hget, hsub2⟩ :=
        ih (processTask fired deliver nowUtc idx hd).1 (idx + 1) j' t h
      have harith : idx + 1 + j' = idx + (j' + 1) := by omega
      rw [harith] at hget hsub2
      refine ⟨f0, ?_, ?_, ?_⟩
      · exact fun x hx =>
          hsub (processTask_fired_subset fired deliver nowUtc idx hd hx)
      · simpa [processCycleAux] using hget
      · simpa [processCycleAux] using hsub2

lemma processTask_of_fired (fired : List String)
    (deliver : String → String → String → Bool) (nowUtc : Int)
    (idx : Nat) (t : STask) (hone : t.isOneOff = true)
    (hmem : t.effId idx ∈ fired) :
    processTask fired deliver nowUtc idx t = (fired, ScanAction.skippedFired) := by
  have hc : fired.contains (t.effId idx) = true := List.elem_iff.mpr hmem
  unfold processTask
  dsimp only
  rw [hone, hc]
  rfl

lemma processTask_delivered_mem (fired : List String)
    (deliver : String → String → String → Bool) (nowUtc : Int)
    (idx : Nat) (t : STask) (hone : t.isOneOff = true) :
    (processTask fired deliver nowUtc idx t).2 = ScanAction.delivered →
      t.effId idx ∈ (processTask fired deliver nowUtc idx t).1 := by
  unfold processTask
  dsimp only
  repeat' split
  all_goals simp [hone]

lemma processTask_failed_fired (fired : List String)
    (deliver : String → String → String → Bool) (nowUtc : Int)
    (idx : Nat) (t : STask) :
    (processTask fired deliver nowUtc idx t).2 = ScanAction.deliveryFailed →
      (processTask fired deliver nowUtc idx t).1 = fired := by
  unfold processTask
  dsimp only
  repeat' split
  all_goals simp

lemma runCycles_all_skipped (tasks : List STask) (i : Nat) (t : STask)
    (hone : t.isOneOff = true) (hget : tasks.get? i = some t) :
    ∀ (cycles : List (Int × (String → String → String → Bool)))
      (fired : List String), t.effId i ∈ fired →
      ∀ trace ∈ (runCycles tasks cycles fired).2,
        trace.get? i = some ScanAction.skippedFired := by
  intro cycles
  induction cycles with
  | nil => intro fired _ trace htr; simp [runCycles] at htr
  | cons c rest ih =>
    intro fired hmem trace htr
    obtain ⟨cn, cd⟩ := c
    simp only [runCycles, List.mem_cons] at htr
    rcases htr with rfl | htr
    · obtain ⟨f0, hsub, hget2, _⟩ :=
        processCycleAux_get cd cn tasks fired 0 i t hget
      rw [show (0 : Nat) + i = i by omega] at hget2
      rw [processCycle, hget2,
        processTask_of_fired f0 cd cn i t hone (hsub hmem)]
    · exact ih (processCycle fired cd cn tasks).1
        (processCycleAux_fired_subset cd cn tasks fired 0 hmem) trace htr

lemma skip_cond_false (t : STask) (idx : Nat) (fired : List String)
    (h : (t.isOneOff && fired.contains (t.effId idx)) = false) :
    ¬(t.isOneOff = true ∧ t.effId idx ∈ fired) := by
  rintro ⟨h1, h2⟩
  rw [h1] at h
  simp at h
  exact h h2

lemma skip_cond_true (t : STask) (idx : Nat) (fired : List String)
    (h : (t.isOneOff && fired.contains (t.effId idx)) = true) :
    t.isOneOff = true ∧ t.effId idx ∈ fired := by
  simpa using h

/-- C5: a task whose resolved next occurrence is occ is treated as due,
with a delivery attempted, exactly when occ <= now + poll_interval/2 =
now + 5 s (for a task that reaches the due check: not skipped as an
already-fired one-off, and with both payload fields present); and when
occ is later than that bound no delivery is attempted in the cycle. -/
theorem due_iff_within_half_poll
    (fired : List String) (deliver : String → String → String → Bool)
    (now : Int) (idx : Nat) (t : STask) (e : VEvent) (occ : Int)
    (hv : t.schedule_vevent = some e)
    (hocc : calculate_next_occurrence e now = some occ) :
    ((t.isOneOff && fired.contains (t.effId idx)) = false →
     truthy t.conversation_id = true → truthy t.user_prompt = true →
     ((processTask fired deliver now idx t).2.isDeliveryAttempt = true ↔
        occ ≤ now + 5)) ∧
    (now + 5 < occ →
        (processTask fired deliver now idx t).2.isDeliveryAttempt = false) ∧
    POLL_INTERVAL_SECONDS / 2 = 5 := by
  have hhalf : (POLL_INTERVAL_SECONDS : Int) / 2 = 5 := by
    norm_num [POLL_INTERVAL_SECONDS]
  refine ⟨?_, ?_, hhalf⟩
  · intro hskip hc hu
    have hskipP := skip_cond_false t idx fired hskip
    by_cases hdue : occ ≤ now + 5
    · by_cases hd : deliver (t.conversation_id.getD "") (t.user_prompt.getD "")
          (t.effId idx) = true
      · simp [processTask, hskipP, hv, hocc, hc, hu, hhalf, hdue, hd,
          ScanAction.isDeliveryAttempt]
      · simp [processTask, hskipP, hv, hocc, hc, hu, hhalf, hdue, hd,
          ScanAction.isDeliveryAttempt]
    · simp [processTask, hskipP, hv, hocc, hc, hu, hhalf, hdue,
        ScanAction.isDeliveryAttempt]
  · intro hlate
    have hnotdue : ¬ occ ≤ now + 5 := by omega
    by_cases hskip : (t.isOneOff && fired.contains (t.effId idx)) = true
    · have hskipP := skip_cond_true t idx fired hskip
      simp [processTask, hskipP, ScanAction.isDeliveryAttempt]
    · have hskipP : ¬(t.isOneOff = true ∧ t.effId idx ∈ fired) := by
        simp at hskip
        rintro ⟨h1, h2⟩
        exact hskip h1 h2
      simp [processTask, hskipP, hv, hocc, hhalf, hnotdue,
        ScanAction.isDeliveryAttempt]

/-- Concrete one-off task records for the scanner witnesses. -/
def oneOffTask : STask := ⟨some "t1", some "c", some "p", some oneOffJan1Event⟩

/-- A delivery oracle that always succeeds. -/
def demoDeliver : String → String → String → Bool := fun _ _ _ => true

/-- Witness for C5: at a poll exactly on the one-off start instant, a
delivery attempt happens iff the occurrence is within now + 5 s. -/
theorem due_iff_within_half_poll_witness :
    calculate_next_occurrence oneOffJan1Event jan1T0900 = some jan1T0900 ∧
    ((processTask [] demoDeliver jan1T0900 0 oneOffTask).2.isDeliveryAttempt = true ↔
      jan1T0900 ≤ jan1T0900 + 5) :=
  ⟨by decide,
   (due_iff_within_half_poll [] demoDeliver jan1T0900 0 oneOffTask
      oneOffJan1Event jan1T0900 rfl (by decide)).1 (by decide) (by decide)
      (by decide)⟩

/-- C6: within one process lifetime, a one-off task successfully
delivered is never delivered again: a successful delivery puts its id
into the returned registry; a failed delivery leaves the registry
unchanged; a one-off task whose id is in the registry is skipped
outright; a cycle whose trace records a delivery for the task ends with
its id in the registry, the registry only grows across a cycle, and once
the id is in the registry every subsequent cycle records skippedFired
for that task. -/
theorem oneoff_never_redelivered (t : STask) (i : Nat)
    (hone : t.isOneOff = true) :
    (∀ fired deliver now,
        (processTask fired deliver now i t).2 = ScanAction.delivered →
          t.effId i ∈ (processTask fired deliver now i t).1) ∧
    (∀ fired deliver now,
        (processTask fired deliver now i t).2 = ScanAction.deliveryFailed →
          (processTask fired deliver now i t).1 = fired) ∧
    (∀ fired deliver now, t.effId i ∈ fired →
        processTask fired deliver now i t = (fired, ScanAction.skippedFired)) ∧
    (∀ tasks fired deliver now, tasks.get? i = some t →
        (processCycle fired deliver now tasks).2.get? i =
            some ScanAction.delivered →
          t.effId i ∈ (processCycle fired deliver now tasks).1) ∧
    (∀ tasks fired deliver now,
        fired ⊆ (processCycle fired deliver now tasks).1) ∧
    (∀ tasks cycles fired, tasks.get? i = some t → t.effId i ∈ fired →
        ∀ trace ∈ (runCycles tasks cycles fired).2,
          trace.get? i = some ScanAction.skippedFired) := by
  refine ⟨?_, ?_, ?_, ?_, ?_, ?_⟩
  · intro fired deliver now
    exact processTask_delivered_mem fired deliver now i t hone
  · intro fired deliver now
    exact processTask_failed_fired fired deliver now i t
  · intro fired deliver now hmem
    exact processTask_of_fired fired deliver now i t hone hmem
  · intro tasks fired deliver now hget hdel
    obtain ⟨f0, _, hget2, hsub2⟩ :=
      processCycleAux_get deliver now tasks fired 0 i t hget
    rw [show (0 : Nat) + i = i by omega] at hget2 hsub2
    rw [processCycle, hget2] at hdel
    have := processTask_delivered_mem f0 deliver now i t hone
      (by injection hdel)
    exact hsub2 this
  · intro tasks fired deliver now
    exact processCycleAux_fired_subset deliver now tasks fired 0
  · intro tasks cycles fired hget hmem
    exact runCycles_all_skipped tasks i t hone hget cycles fired hmem

/-- Witness for C6: a fired one-off task is skipped. -/
theorem oneoff_never_redelivered_witness :
    oneOffTask.isOneOff = true ∧
    processTask ["t1"] demoDeliver jan1T0900 0 oneOffTask =
      (["t1"], ScanAction.skippedFired) :=
  ⟨by decide,
   (oneoff_never_redelivered oneOffTask 0 (by decide)).2.2.1 ["t1"] demoDeliver
      jan1T0900 (by decide)⟩

/-- C9: a task that is classified as due but whose record lacks
conversation_id or user_prompt (absent or empty, both falsy) is skipped:
no delivery attempt is made and the fired-once registry is unchanged,
even for a one-off task. -/
theorem due_missing_fields_skipped
    (fired : List String) (deliver : String → String → String → Bool)
    (now : Int) (idx : Nat) (t : STask) (e : VEvent) (occ : Int)
    (hv : t.schedule_vevent = some e)
    (hocc : calculate_next_occurrence e now = some occ)
    (hdue : occ ≤ now + 5)
    (hskip : (t.isOneOff && fired.contains (t.effId idx)) = false)
    (hmiss : truthy t.conversation_id = false ∨ truthy t.user_prompt = false) :
    processTask fired deliver now idx t = (fired, ScanAction.missingFields) ∧
    (processTask fired deliver now idx t).2.isDeliveryAttempt = false ∧
    (processTask fired deliver now idx t).1 = fired := by
  have hhalf : (POLL_INTERVAL_SECONDS : Int) / 2 = 5 := by
    norm_num [POLL_INTERVAL_SECONDS]
  have hskipP := skip_cond_false t idx fired hskip
  have hmain : processTask fired deliver now idx t =
      (fired, ScanAction.missingFields) := by
    rcases hmiss with h | h <;>
      simp [processTask, hskipP, hv, hocc, hhalf, hdue, h]
  exact ⟨hmain, by rw [hmain]; rfl, by rw [hmain]⟩

/-- A due one-off task with no conversation_id. -/
def noCidTask : STask := ⟨some "t3", none, some "p", some oneOffJan1Event⟩

/-- Witness for C9: the due task lacking conversation_id yields a
missingFields action with the registry untouched. -/
theorem due_missing_fields_skipped_witness :
    calculate_next_occurrence oneOffJan1Event jan1T0900 = some jan1T0900 ∧
    processTask [] demoDeliver jan1T0900 0 noCidTask =
      ([], ScanAction.missingFields) :=
  ⟨by decide,
   (due_missing_fields_skipped [] demoDeliver jan1T0900 0 noCidTask
      oneOffJan1Event jan1T0900 rfl (by decide) (by decide) (by decide)
      (Or.inl (by decide))).1⟩

end Chatty
